import Mathlib

/-!
Verification development for the yma-anonymizer backend.

The definitions below are a shallow embedding of the Python sources:
  src/app/services/simplex.py  (Visit-History client, error taxonomy, retry)
  src/app/services/llm.py      (Text-Anonymization client, retry config)
  src/app/main.py              (request handlers)
  src/app/models.py            (response schemas)
Stateful and effectful parts (HTTP exchanges, the wall clock, uuid
generation) are passed in explicitly as parameters; machine behaviour of
the tenacity retry decorator is modelled from the tenacity library source
that the two services configure.
-/

namespace Yma

/-- Error taxonomy of the Simplex client, from src/app/services/simplex.py
lines 89-114: the subclasses of SimplexError. Each raised exception carries
a message string; the kind is the exception class. -/
inductive SimplexErrorKind where
  | network
  | auth
  | notFound
  | rateLimited
  | clientError
  | serverError
deriving DecidableEq, Repr

/-- Retryable predicate of simplex_retry, from simplex.py line 138:
retry_if_exception_type((SimplexNetworkError, SimplexServerError,
SimplexRateLimitError)) — true exactly for those three classes. -/
def simplex_retryable : SimplexErrorKind → Bool
  | .network => true
  | .serverError => true
  | .rateLimited => true
  | .auth => false
  | .notFound => false
  | .clientError => false

/-- Exception classes caught and retried by openai_retry, from
src/app/services/llm.py lines 57-65; otherError stands for any exception
outside that tuple. -/
inductive OpenAIError where
  | rateLimitError
  | apiError
  | apiConnectionError
  | apiTimeoutError
  | timeoutError
  | otherError
deriving DecidableEq, Repr

/-- Retryable predicate of openai_retry, from llm.py lines 57-65:
retry_if_exception_type((RateLimitError, APIError, APIConnectionError,
APITimeoutError, TimeoutError)). -/
def openai_retryable : OpenAIError → Bool
  | .otherError => false
  | _ => true

/-- SIMPLEX_RETRY_ATTEMPTS, simplex.py line 120. -/
def SIMPLEX_RETRY_ATTEMPTS : Nat := 3

/-- RETRY_ATTEMPTS_COUNT, llm.py line 20. -/
def RETRY_ATTEMPTS_COUNT : Nat := 3

/-- Core loop of a tenacity retry(reraise=True, stop=stop_after_attempt n,
retry=retry_if_exception_type ...) wrapper, modelled from tenacity
BaseRetrying.iter: the wrapped operation is invoked with attempt_number
starting at 1; on success the value is returned; on a failure that the
retry predicate rejects, the failure is raised at once; on a failure that
it accepts, the call stops (reraising that same failure unchanged) once
stop_after_attempt fires, and otherwise sleeps and runs the next attempt.
The fuel argument counts the attempts still allowed after the current one;
the result pairs the final attempt number (= the number of invocations of
the operation) with the final outcome. The operation is modelled as a
function from the attempt number to that attempt's outcome. -/
def retry_run (retryable : ε → Bool) (op : Nat → Except ε α) (fuel attempt : Nat) :
    Nat × Except ε α :=
  match op attempt with
  | .ok a => (attempt, .ok a)
  | .error e =>
    if retryable e then
      match fuel with
      | 0 => (attempt, .error e)
      | f + 1 => retry_run retryable op f (attempt + 1)
    else (attempt, .error e)

/-- One execution of a tenacity-wrapped operation with
stop=stop_after_attempt maxAttemptNumber: attempt 1 runs with
maxAttemptNumber - 1 further attempts allowed. -/
def retry_call (retryable : ε → Bool) (maxAttemptNumber : Nat)
    (op : Nat → Except ε α) : Nat × Except ε α :=
  retry_run retryable op (maxAttemptNumber - 1) 1

/-- Wait computation of tenacity wait_exponential(multiplier, max, exp_base,
min), from tenacity wait.py: result = multiplier * exp_base ^
(attempt_number - 1), then max(max(0, min), min(result, max)). The wait is
computed, and logged by the before_sleep callback, with attempt_number
still equal to the attempt that just failed; attempt_number is only
incremented afterwards. All arguments at both call sites are naturals. -/
def wait_exponential (multiplier maxWait expBase minWait attemptNumber : Nat) : Nat :=
  max (max 0 minWait) (min (multiplier * expBase ^ (attemptNumber - 1)) maxWait)

/-- Backoff wait inserted before attempt k (k ≥ 2) at both call sites,
which configure wait_exponential(multiplier=2, max=120, exp_base=2)
(simplex.py line 137, llm.py line 56): the wait is computed after attempt
k - 1 fails, with attempt_number = k - 1. -/
def backoff_before_attempt (k : Nat) : Nat :=
  wait_exponential 2 120 2 0 (k - 1)

theorem retry_run_attempt_le (retryable : ε → Bool) (op : Nat → Except ε α) :
    ∀ fuel attempt, (retry_run retryable op fuel attempt).1 ≤ attempt + fuel := by
  intro fuel
  induction fuel with
  | zero =>
    intro a
    unfold retry_run
    cases h : op a with
    | ok v => simp
    | error e => cases hr : retryable e <;> simp [hr]
  | succ f ih =>
    intro a
    unfold retry_run
    cases h : op a with
    | ok v => simp
    | error e =>
      cases hr : retryable e with
      | true =>
        simp only [hr, if_true]
        exact le_trans (ih (a + 1)) (by omega)
      | false => simp [hr]

theorem retry_run_error_src (retryable : ε → Bool) (op : Nat → Except ε α) :
    ∀ fuel attempt e, (retry_run retryable op fuel attempt).2 = .error e →
      op (retry_run retryable op fuel attempt).1 = .error e := by
  intro fuel
  induction fuel with
  | zero =>
    intro a e
    unfold retry_run
    cases h : op a with
    | ok v => simp
    | error e0 =>
      cases hr : retryable e0 <;> simp [hr] <;> (intro he; rw [h, he])
  | succ f ih =>
    intro a e
    unfold retry_run
    cases h : op a with
    | ok v => simp
    | error e0 =>
      cases hr : retryable e0 with
      | true =>
        simp only [hr, if_true]
        exact ih (a + 1) e
      | false =>
        intro he
        simp only [hr, Bool.false_eq_true, if_false] at he
        simp only [hr, Bool.false_eq_true, if_false]
        simp only [Except.error.injEq] at he
        rw [h, he]

theorem retry_run_stop_nonretryable (retryable : ε → Bool) (op : Nat → Except ε α)
    (fuel a : Nat) (e : ε) (h : op a = .error e) (hr : retryable e = false) :
    retry_run retryable op fuel a = (a, .error e) := by
  unfold retry_run
  rw [h]
  simp [hr]

theorem retry_run_step_retryable (retryable : ε → Bool) (op : Nat → Except ε α)
    (f a : Nat) (e : ε) (h : op a = .error e) (hr : retryable e = true) :
    retry_run retryable op (f + 1) a = retry_run retryable op f (a + 1) := by
  rw [retry_run.eq_def, h]
  simp [hr]

theorem retry_run_exhausted (retryable : ε → Bool) (op : Nat → Except ε α)
    (a : Nat) (e : ε) (h : op a = .error e) :
    retry_run retryable op 0 a = (a, .error e) := by
  unfold retry_run
  rw [h]
  cases hr : retryable e <;> simp [hr]

/-- JSON values, as decoded by response.json(): the payload type handed
from the Outbound Client Wrapper to validation. -/
inductive JsonValue where
  | null
  | bool (b : Bool)
  | str (s : String)
  | num (n : Int)
  | arr (elements : List JsonValue)
  | obj (fields : List (String × JsonValue))
deriving Repr

/-- Outcome of one outbound HTTP exchange inside SimplexService._request
(simplex.py lines 185-202): either the await of self._client.request raised
httpx.TimeoutException or httpx.TransportError (transportError), or a
response arrived carrying a status code and the result of response.json()
(none when JSON parsing raised). -/
inductive HttpOutcome where
  | transportError
  | response (statusCode : Nat) (jsonBody : Option JsonValue)

/-- Classification performed by one body of SimplexService._request
(simplex.py lines 185-223), translated clause for clause: transport or
timeout exception raises SimplexNetworkError; a status in [200, 300)
returns the parsed JSON, or raises SimplexClientError when parsing fails;
401 raises SimplexAuthError; 404 raises SimplexNotFoundError; 429 raises
SimplexRateLimitError; any other status in [400, 500) raises
SimplexClientError; any status at or above 500 raises SimplexServerError;
anything else raises SimplexClientError. -/
def classify_request : HttpOutcome → Except SimplexErrorKind JsonValue
  | .transportError => .error .network
  | .response statusCode jsonBody =>
    if 200 ≤ statusCode ∧ statusCode < 300 then
      match jsonBody with
      | some payload => .ok payload
      | none => .error .clientError
    else if statusCode = 401 then .error .auth
    else if statusCode = 404 then .error .notFound
    else if statusCode = 429 then .error .rateLimited
    else if 400 ≤ statusCode ∧ statusCode < 500 then .error .clientError
    else if 500 ≤ statusCode then .error .serverError
    else .error .clientError

/-- Classification table as the specification states it (section 4.1,
checked in order with first match winning): transport or timeout exception
maps to Network; a status in [200, 300) with a decodable body returns the
decoded value, with an unparseable body maps to ClientError; 401 maps to
Auth; 404 maps to NotFound; 429 maps to RateLimited; any other status in
[400, 500) maps to ClientError; any status at or above 500 maps to
ServerError; anything else maps to ClientError. -/
def claimed_classification : HttpOutcome → Except SimplexErrorKind JsonValue
  | .transportError => .error .network
  | .response statusCode jsonBody =>
    if 200 ≤ statusCode ∧ statusCode < 300 then
      match jsonBody with
      | some payload => .ok payload
      | none => .error .clientError
    else if statusCode = 401 then .error .auth
    else if statusCode = 404 then .error .notFound
    else if statusCode = 429 then .error .rateLimited
    else if 400 ≤ statusCode ∧ statusCode < 500 then .error .clientError
    else if 500 ≤ statusCode then .error .serverError
    else .error .clientError

/-- The retry-wrapped request operation of the Visit-History client:
the simplex_retry decorator (simplex.py lines 134-140) applied to
SimplexService._request (lines 173-223); the exchanges argument gives the
HTTP outcome observed by each attempt. The result pairs the number of
attempts made with the final outcome. -/
def simplex_request (exchanges : Nat → HttpOutcome) :
    Nat × Except SimplexErrorKind JsonValue :=
  retry_call simplex_retryable SIMPLEX_RETRY_ATTEMPTS
    (fun k => classify_request (exchanges k))

/-- Lookup of a key in a decoded JSON object. Python dicts hold at most
one entry per key; payloads are modelled as association lists with the
first binding winning. -/
def lookup_field (fields : List (String × JsonValue)) (name : String) : Option JsonValue :=
  match fields with
  | [] => none
  | (k, v) :: rest => if k = name then some v else lookup_field rest name

/-- Pydantic validation of one required field declared str: present with a
string value succeeds, present with any other value fails, absent fails
(str fields accept only JSON strings in pydantic v2 lax mode). -/
def require_str (fields : List (String × JsonValue)) (name : String) : Except String String :=
  match lookup_field fields name with
  | some (.str s) => .ok s
  | some _ => .error (name ++ ": Input should be a valid string")
  | none => .error (name ++ ": Field required")

/-- Pydantic v2 lax-mode coercion of one JSON value into a declared bool
field, from the pydantic-core bool validator: a JSON bool is itself; the
integers 0 and 1 coerce (JSON numbers are modelled as integers — the
floats 0.0 and 1.0 that pydantic also accepts have no separate
representation here); the strings false, f, no, n, off, 0 and true, t,
yes, y, on, 1 coerce case-insensitively; every other value is rejected. -/
def coerce_bool : JsonValue → Option Bool
  | .bool b => some b
  | .num 0 => some false
  | .num 1 => some true
  | .str s =>
    let l := s.toLower
    if l = "false" ∨ l = "f" ∨ l = "no" ∨ l = "n" ∨ l = "off" ∨ l = "0" then
      some false
    else if l = "true" ∨ l = "t" ∨ l = "yes" ∨ l = "y" ∨ l = "on" ∨ l = "1" then
      some true
    else none
  | _ => none

/-- Pydantic validation of one required field declared bool: present and
coercible succeeds with the coerced value, present but not coercible
fails, absent fails. -/
def require_bool (fields : List (String × JsonValue)) (name : String) : Except String Bool :=
  match lookup_field fields name with
  | some j =>
    match coerce_bool j with
    | some b => .ok b
    | none => .error (name ++ ": Input should be a valid boolean")
  | none => .error (name ++ ": Field required")

/-- Pydantic validation of one optional field declared str with default
None: absent or null gives none, a string gives the string, any other
value fails. -/
def optional_str (fields : List (String × JsonValue)) (name : String) :
    Except String (Option String) :=
  match lookup_field fields name with
  | none => .ok none
  | some .null => .ok none
  | some (.str s) => .ok (some s)
  | some _ => .error (name ++ ": Input should be a valid string")

/-- SimplexPatientVisitHistoryItem, simplex.py lines 61-77: fifteen
required string fields plus the optional Patient_Visit_Registration_Note. -/
structure SimplexPatientVisitHistoryItem where
  Patient_Visit_Medical_Family_Social_History_Details_Serial_No : String
  Patient_Basic_Details_Serial_No : String
  Patient_Visit_Basic_Details_Serial_No : String
  Past_MH : String
  Is_Past_MH_a_Warning : String
  Past_Surgical_MH : String
  Is_Past_Surgical_MH_a_Warning : String
  Other_Family_MH : String
  Is_Other_Family_MH_a_Warning : String
  Med_Fam_Social_History_Note : String
  Is_Med_Fam_Social_History_Note_a_Warning : String
  Permanent_MRN_No : String
  Permanent_Visit_No : String
  Patient_Visit_Registration_Note : Option String
  Patient_Visit_Registered_Date_Time : String
  Active_Status : String
deriving DecidableEq, Repr

/-- SimplexPatientVisitHistoryResponse, simplex.py lines 80-83: status
flag, message string, and the ordered data sequence, whose declaration
carries Field(default_factory=list). -/
structure SimplexPatientVisitHistoryResponse where
  status : Bool
  message : String
  data : List SimplexPatientVisitHistoryItem
deriving DecidableEq, Repr

/-- Validation of one item of the data array against
SimplexPatientVisitHistoryItem, field by declared field. Pydantic reports
all field errors together; only the failure or success and the decoded
record matter here, so the first error stands for the report. -/
def SimplexPatientVisitHistoryItem.model_validate (payload : JsonValue) :
    Except String SimplexPatientVisitHistoryItem :=
  match payload with
  | .obj fields => do
    let f1 ← require_str fields "Patient_Visit_Medical_Family_Social_History_Details_Serial_No"
    let f2 ← require_str fields "Patient_Basic_Details_Serial_No"
    let f3 ← require_str fields "Patient_Visit_Basic_Details_Serial_No"
    let f4 ← require_str fields "Past_MH"
    let f5 ← require_str fields "Is_Past_MH_a_Warning"
    let f6 ← require_str fields "Past_Surgical_MH"
    let f7 ← require_str fields "Is_Past_Surgical_MH_a_Warning"
    let f8 ← require_str fields "Other_Family_MH"
    let f9 ← require_str fields "Is_Other_Family_MH_a_Warning"
    let f10 ← require_str fields "Med_Fam_Social_History_Note"
    let f11 ← require_str fields "Is_Med_Fam_Social_History_Note_a_Warning"
    let f12 ← require_str fields "Permanent_MRN_No"
    let f13 ← require_str fields "Permanent_Visit_No"
    let f14 ← optional_str fields "Patient_Visit_Registration_Note"
    let f15 ← require_str fields "Patient_Visit_Registered_Date_Time"
    let f16 ← require_str fields "Active_Status"
    .ok ⟨f1, f2, f3, f4, f5, f6, f7, f8, f9, f10, f11, f12, f13, f14, f15, f16⟩
  | _ => .error "Input should be a valid dictionary"

/-- The fifteen required fields of SimplexPatientVisitHistoryItem, in
declaration order (every declared field except the optional
Patient_Visit_Registration_Note). -/
def item_required_fields : List String :=
  ["Patient_Visit_Medical_Family_Social_History_Details_Serial_No",
   "Patient_Basic_Details_Serial_No",
   "Patient_Visit_Basic_Details_Serial_No",
   "Past_MH",
   "Is_Past_MH_a_Warning",
   "Past_Surgical_MH",
   "Is_Past_Surgical_MH_a_Warning",
   "Other_Family_MH",
   "Is_Other_Family_MH_a_Warning",
   "Med_Fam_Social_History_Note",
   "Is_Med_Fam_Social_History_Note_a_Warning",
   "Permanent_MRN_No",
   "Permanent_Visit_No",
   "Patient_Visit_Registered_Date_Time",
   "Active_Status"]

/-- Validation of every element of the data array in order. -/
def validate_items : List JsonValue → Except String (List SimplexPatientVisitHistoryItem)
  | [] => .ok []
  | j :: rest => do
    let item ← SimplexPatientVisitHistoryItem.model_validate j
    let items ← validate_items rest
    .ok (item :: items)

/-- Validation of the data field: absent gives the declared
default_factory value, the empty list; a JSON array validates every
element; any other value fails. -/
def validate_data (fields : List (String × JsonValue)) :
    Except String (List SimplexPatientVisitHistoryItem) :=
  match lookup_field fields "data" with
  | none => .ok []
  | some (.arr xs) => validate_items xs
  | some _ => .error "data: Input should be a valid list"

/-- SimplexPatientVisitHistoryResponse.model_validate, as invoked at
simplex.py line 262: the decoded JSON payload is validated against the
declared shape. -/
def SimplexPatientVisitHistoryResponse.model_validate (payload : JsonValue) :
    Except String SimplexPatientVisitHistoryResponse :=
  match payload with
  | .obj fields =>
    match require_bool fields "status" with
    | .error m => .error m
    | .ok statusVal =>
      match require_str fields "message" with
      | .error m => .error m
      | .ok messageVal =>
        match validate_data fields with
        | .error m => .error m
        | .ok dataVal => .ok ⟨statusVal, messageVal, dataVal⟩
  | _ => .error "Input should be a valid dictionary"

/-- Failure surfaced by get_patient_visit_history to its caller: either
one of the SimplexError subclasses raised inside the retried _request, or
the pydantic ValidationError raised by model_validate (simplex.py line
262), which is not a SimplexError subclass. -/
inductive ServiceError where
  | simplex (kind : SimplexErrorKind)
  | validation (message : String)
deriving DecidableEq, Repr

/-- The retry predicate retry_if_exception_type((SimplexNetworkError,
SimplexServerError, SimplexRateLimitError)) evaluated over everything
get_patient_visit_history can raise: a pydantic ValidationError is an
instance of none of the three listed classes. -/
def service_retryable : ServiceError → Bool
  | .simplex k => simplex_retryable k
  | .validation _ => false

/-- SimplexService.get_patient_visit_history, simplex.py lines 248-262:
one call of the retry-wrapped _request, then model_validate on the payload
it returned — validation runs after the retry wrapper has finished. The
result pairs the number of HTTP attempts with the outcome. -/
def get_patient_visit_history (exchanges : Nat → HttpOutcome) :
    Nat × Except ServiceError SimplexPatientVisitHistoryResponse :=
  match simplex_request exchanges with
  | (n, .error k) => (n, .error (.simplex k))
  | (n, .ok payload) =>
    match SimplexPatientVisitHistoryResponse.model_validate payload with
    | .error m => (n, .error (.validation m))
    | .ok r => (n, .ok r)

/-- Claim C3 counterexample: the wait before attempt 2 at the shared
backoff configuration (multiplier 2, max 120, exp base 2) is 2 seconds,
not the 4 seconds the claim states: tenacity computes the wait with
attempt_number = 1, the attempt that just failed, giving 2 * 2 ^ 0 = 2. -/
theorem C3_backoff_counterexample :
    backoff_before_attempt 2 = 2 ∧ ¬ backoff_before_attempt 2 = 4 := by
  decide

/-- Claim C3 (amended): for the retry backoff schedule used at both call
sites (multiplier 2, exponential base 2, cap 120), the wait before attempt
2 is 2 seconds, the wait before attempt 3 is 4 seconds, and for every
attempt number the computed wait never exceeds 120 seconds. -/
theorem C3_backoff_schedule :
    backoff_before_attempt 2 = 2 ∧ backoff_before_attempt 3 = 4 ∧
      ∀ k, wait_exponential 2 120 2 0 k ≤ 120 := by
  refine ⟨by decide, by decide, ?_⟩
  intro k
  unfold wait_exponential
  simp only [Nat.max_self, Nat.max_eq_right (Nat.zero_le _)]
  omega

/-- Claim C4: for every outcome of a single outbound HTTP request, the
classification performed by SimplexService._request is total and exact and
agrees everywhere with the mapping the specification lists (transport
exception to Network, decodable 2xx to the decoded value, unparseable 2xx
body to ClientError, 401 to Auth, 404 to NotFound, 429 to RateLimited,
other 4xx to ClientError, 5xx and above to ServerError, anything else to
ClientError, first match winning). -/
theorem C4_classification_exact :
    ∀ o : HttpOutcome, classify_request o = claimed_classification o := by
  intro o
  cases o <;> rfl

/-- Claim C2: the retry policy around SimplexService._request makes at
most 3 attempts; a first failure whose kind is not retryable (Auth,
NotFound, ClientError) is propagated after exactly one attempt; three
consecutive retryable failures (Network, ServerError, RateLimited) exhaust
the budget at exactly 3 attempts and propagate the third failure; and in
every case the propagated failure is exactly the failure classified on the
final attempt, unchanged, with no wrapping and no attempt count injected.
The first conjunct fixes retryability by kind alone. -/
theorem C2_simplex_request_retry (exchanges : Nat → HttpOutcome) :
    (∀ k, simplex_retryable k = true ↔
        (k = .network ∨ k = .serverError ∨ k = .rateLimited))
    ∧ (simplex_request exchanges).1 ≤ 3
    ∧ (∀ e, classify_request (exchanges 1) = .error e →
        simplex_retryable e = false → simplex_request exchanges = (1, .error e))
    ∧ (∀ e1 e2 e3,
        classify_request (exchanges 1) = .error e1 → simplex_retryable e1 = true →
        classify_request (exchanges 2) = .error e2 → simplex_retryable e2 = true →
        classify_request (exchanges 3) = .error e3 →
        simplex_request exchanges = (3, .error e3))
    ∧ (∀ e, (simplex_request exchanges).2 = .error e →
        classify_request (exchanges (simplex_request exchanges).1) = .error e) := by
  refine ⟨by intro k; cases k <;> simp [simplex_retryable], ?_, ?_, ?_, ?_⟩
  · have h := retry_run_attempt_le simplex_retryable
      (fun k => classify_request (exchanges k)) 2 1
    simpa [simplex_request, retry_call, SIMPLEX_RETRY_ATTEMPTS] using h
  · intro e h hr
    have := retry_run_stop_nonretryable simplex_retryable
      (fun k => classify_request (exchanges k)) 2 1 e h hr
    simpa [simplex_request, retry_call, SIMPLEX_RETRY_ATTEMPTS] using this
  · intro e1 e2 e3 h1 hr1 h2 hr2 h3
    have s1 := retry_run_step_retryable simplex_retryable
      (fun k => classify_request (exchanges k)) 1 1 e1 h1 hr1
    have s2 := retry_run_step_retryable simplex_retryable
      (fun k => classify_request (exchanges k)) 0 2 e2 h2 hr2
    have s3 := retry_run_exhausted simplex_retryable
      (fun k => classify_request (exchanges k)) 3 e3 h3
    have : retry_run simplex_retryable
        (fun k => classify_request (exchanges k)) 2 1 = (3, .error e3) := by
      rw [s1, s2, s3]
    simpa [simplex_request, retry_call, SIMPLEX_RETRY_ATTEMPTS] using this
  · intro e h
    have := retry_run_error_src simplex_retryable
      (fun k => classify_request (exchanges k)) 2 1 e
    simp only [simplex_request, retry_call, SIMPLEX_RETRY_ATTEMPTS] at h ⊢
    exact this h

/-- Witness for claim C2: a persistent transport failure is classified as
Network each attempt and exhausts all 3 attempts before propagating; a
single 404 is classified as NotFound and propagates after exactly one
attempt, unchanged. -/
theorem C2_simplex_request_retry_witness :
    simplex_request (fun _ => .transportError) = (3, .error .network)
    ∧ simplex_request (fun _ => .response 404 none) = (1, .error .notFound) := by
  refine ⟨?_, ?_⟩
  · exact (C2_simplex_request_retry (fun _ => .transportError)).2.2.2.1
      .network .network .network rfl rfl rfl rfl rfl
  · exact (C2_simplex_request_retry (fun _ => .response 404 none)).2.2.1
      .notFound rfl rfl

theorem require_bool_error_of_none (fields : List (String × JsonValue)) (name : String)
    (h : lookup_field fields name = none) :
    require_bool fields name = .error (name ++ ": Field required") := by
  unfold require_bool
  rw [h]

theorem require_str_error_of_none (fields : List (String × JsonValue)) (name : String)
    (h : lookup_field fields name = none) :
    require_str fields name = .error (name ++ ": Field required") := by
  unfold require_str
  rw [h]

theorem require_str_error_of_wrong (fields : List (String × JsonValue)) (name : String)
    (j : JsonValue) (h : lookup_field fields name = some j) (hn : ∀ s, j ≠ .str s) :
    require_str fields name = .error (name ++ ": Input should be a valid string") := by
  unfold require_str
  rw [h]
  cases j with
  | str s => exact absurd rfl (hn s)
  | null => rfl
  | bool b => rfl
  | num n => rfl
  | arr xs => rfl
  | obj fs => rfl

theorem require_bool_error_of_wrong (fields : List (String × JsonValue)) (name : String)
    (j : JsonValue) (hj : lookup_field fields name = some j) (hc : coerce_bool j = none) :
    require_bool fields name = .error (name ++ ": Input should be a valid boolean") := by
  unfold require_bool
  simp only [hj, hc]

theorem require_bool_ok_coerce (fields : List (String × JsonValue)) (name : String)
    (b : Bool) (h : require_bool fields name = .ok b) :
    ∃ j, lookup_field fields name = some j ∧ coerce_bool j = some b := by
  unfold require_bool at h
  cases hl : lookup_field fields name with
  | none => simp [hl] at h
  | some j =>
    simp only [hl] at h
    cases hc : coerce_bool j with
    | none => simp [hc] at h
    | some b0 =>
      simp only [hc, Except.ok.injEq] at h
      exact ⟨j, rfl, by rw [hc, h]⟩

theorem require_str_ok_lookup (fields : List (String × JsonValue)) (name : String)
    (s : String) (h : require_str fields name = .ok s) :
    lookup_field fields name = some (.str s) := by
  unfold require_str at h
  cases hl : lookup_field fields name with
  | none => rw [hl] at h; simp at h
  | some j => rw [hl] at h; cases j <;> simp_all

theorem validate_data_of_none (fields : List (String × JsonValue))
    (h : lookup_field fields "data" = none) : validate_data fields = .ok [] := by
  unfold validate_data
  rw [h]

theorem validate_data_of_arr (fields : List (String × JsonValue)) (xs : List JsonValue)
    (h : lookup_field fields "data" = some (.arr xs)) :
    validate_data fields = validate_items xs := by
  unfold validate_data
  rw [h]

theorem optional_str_of_none (fields : List (String × JsonValue)) (name : String)
    (h : lookup_field fields name = none) : optional_str fields name = .ok none := by
  unfold optional_str
  rw [h]

theorem bind_ok_inv {β γ : Type} {x : Except String β} {f : β → Except String γ} {c : γ}
    (h : (x >>= f) = .ok c) : ∃ b, x = .ok b ∧ f b = .ok c := by
  cases x with
  | error e => exact Except.noConfusion h
  | ok b => exact ⟨b, rfl, h⟩

theorem validate_items_ok_inv (xs : List JsonValue)
    (l : List SimplexPatientVisitHistoryItem) (h : validate_items xs = .ok l) :
    ∀ x ∈ xs, ∃ it, SimplexPatientVisitHistoryItem.model_validate x = .ok it := by
  induction xs generalizing l with
  | nil => intro x hx; simp at hx
  | cons y ys ih =>
    intro x hx
    simp only [validate_items] at h
    obtain ⟨it, hit, h⟩ := bind_ok_inv h
    obtain ⟨its, hits, h⟩ := bind_ok_inv h
    rcases List.mem_cons.mp hx with rfl | hx2
    · exact ⟨it, hit⟩
    · exact ih its hits x hx2

theorem response_validate_ok_parts (fields : List (String × JsonValue))
    (r : SimplexPatientVisitHistoryResponse)
    (h : SimplexPatientVisitHistoryResponse.model_validate (.obj fields) = .ok r) :
    require_bool fields "status" = .ok r.status
    ∧ require_str fields "message" = .ok r.message
    ∧ validate_data fields = .ok r.data := by
  simp only [SimplexPatientVisitHistoryResponse.model_validate] at h
  cases hb : require_bool fields "status" with
  | error m => simp [hb] at h
  | ok bv =>
    simp only [hb] at h
    cases hs : require_str fields "message" with
    | error m => simp [hs] at h
    | ok sv =>
      simp only [hs] at h
      cases hd : validate_data fields with
      | error m => simp [hd] at h
      | ok dv =>
        simp only [hd, Except.ok.injEq] at h
        subst h
        exact ⟨rfl, rfl, rfl⟩

theorem item_validate_ok_parts (ifields : List (String × JsonValue))
    (it : SimplexPatientVisitHistoryItem)
    (h : SimplexPatientVisitHistoryItem.model_validate (.obj ifields) = .ok it) :
    (∀ name, name ∈ item_required_fields →
      ∃ s, lookup_field ifields name = some (.str s))
    ∧ (lookup_field ifields "Patient_Visit_Registration_Note" = none →
      it.Patient_Visit_Registration_Note = none) := by
  simp only [SimplexPatientVisitHistoryItem.model_validate] at h
  obtain ⟨f1, h1, h⟩ := bind_ok_inv h
  obtain ⟨f2, h2, h⟩ := bind_ok_inv h
  obtain ⟨f3, h3, h⟩ := bind_ok_inv h
  obtain ⟨f4, h4, h⟩ := bind_ok_inv h
  obtain ⟨f5, h5, h⟩ := bind_ok_inv h
  obtain ⟨f6, h6, h⟩ := bind_ok_inv h
  obtain ⟨f7, h7, h⟩ := bind_ok_inv h
  obtain ⟨f8, h8, h⟩ := bind_ok_inv h
  obtain ⟨f9, h9, h⟩ := bind_ok_inv h
  obtain ⟨f10, h10, h⟩ := bind_ok_inv h
  obtain ⟨f11, h11, h⟩ := bind_ok_inv h
  obtain ⟨f12, h12, h⟩ := bind_ok_inv h
  obtain ⟨f13, h13, h⟩ := bind_ok_inv h
  obtain ⟨f14, h14, h⟩ := bind_ok_inv h
  obtain ⟨f15, h15, h⟩ := bind_ok_inv h
  obtain ⟨f16, h16, h⟩ := bind_ok_inv h
  simp only [Except.ok.injEq] at h
  subst h
  constructor
  · intro name hname
    simp only [item_required_fields, List.mem_cons, List.not_mem_nil, or_false] at hname
    rcases hname with rfl | rfl | rfl | rfl | rfl | rfl | rfl | rfl | rfl | rfl | rfl |
      rfl | rfl | rfl | rfl
    · exact ⟨f1, require_str_ok_lookup _ _ _ h1⟩
    · exact ⟨f2, require_str_ok_lookup _ _ _ h2⟩
    · exact ⟨f3, require_str_ok_lookup _ _ _ h3⟩
    · exact ⟨f4, require_str_ok_lookup _ _ _ h4⟩
    · exact ⟨f5, require_str_ok_lookup _ _ _ h5⟩
    · exact ⟨f6, require_str_ok_lookup _ _ _ h6⟩
    · exact ⟨f7, require_str_ok_lookup _ _ _ h7⟩
    · exact ⟨f8, require_str_ok_lookup _ _ _ h8⟩
    · exact ⟨f9, require_str_ok_lookup _ _ _ h9⟩
    · exact ⟨f10, require_str_ok_lookup _ _ _ h10⟩
    · exact ⟨f11, require_str_ok_lookup _ _ _ h11⟩
    · exact ⟨f12, require_str_ok_lookup _ _ _ h12⟩
    · exact ⟨f13, require_str_ok_lookup _ _ _ h13⟩
    · exact ⟨f15, require_str_ok_lookup _ _ _ h15⟩
    · exact ⟨f16, require_str_ok_lookup _ _ _ h16⟩
  · intro hnone
    have hn := optional_str_of_none ifields "Patient_Visit_Registration_Note" hnone
    rw [h14] at hn
    simp only [Except.ok.injEq] at hn
    exact hn

/-- Claim C9 counterexample: a payload that lacks the data field passes
validation with data silently defaulted to the empty list — the declared
Field(default_factory=list) of simplex.py line 83 — instead of surfacing
the missing field as a decode failure. -/
theorem C9_missing_data_defaults :
    SimplexPatientVisitHistoryResponse.model_validate
        (.obj [("status", .bool true), ("message", .str "ok")])
      = .ok { status := true, message := "ok", data := [] } := rfl

/-- Claim C9 (amended): after the GET request returns a decoded JSON
payload, the payload is validated against the VisitHistoryResponse shape;
a missing required field, or a field whose value its declared type
rejects — a non-string in message or in any required item field, or a
status value outside the pydantic lax bool coercion — surfaces to the
caller of get_patient_visit_history as a raised decode failure; a
successful validation takes message verbatim from the payload and status
as the pydantic coercion of the payload value; however the two fields
declared with defaults are silently defaulted rather than rejected: an
absent data field becomes the empty list and an absent
Patient_Visit_Registration_Note becomes null. -/
theorem C9_validation_shape (fields : List (String × JsonValue)) :
    (lookup_field fields "status" = none →
      ∃ m, SimplexPatientVisitHistoryResponse.model_validate (.obj fields) = .error m)
    ∧ (lookup_field fields "message" = none →
      ∃ m, SimplexPatientVisitHistoryResponse.model_validate (.obj fields) = .error m)
    ∧ (∀ j, lookup_field fields "status" = some j → coerce_bool j = none →
      ∃ m, SimplexPatientVisitHistoryResponse.model_validate (.obj fields) = .error m)
    ∧ (∀ j, lookup_field fields "message" = some j → (∀ s, j ≠ .str s) →
      ∃ m, SimplexPatientVisitHistoryResponse.model_validate (.obj fields) = .error m)
    ∧ (∀ r, SimplexPatientVisitHistoryResponse.model_validate (.obj fields) = .ok r →
      (∃ j, lookup_field fields "status" = some j ∧ coerce_bool j = some r.status)
      ∧ lookup_field fields "message" = some (.str r.message)
      ∧ (lookup_field fields "data" = none → r.data = []))
    ∧ (∀ xs ifields name, lookup_field fields "data" = some (.arr xs) →
      (.obj ifields) ∈ xs → name ∈ item_required_fields →
      (lookup_field ifields name = none
        ∨ (∃ j, lookup_field ifields name = some j ∧ ∀ s, j ≠ .str s)) →
      ∃ m, SimplexPatientVisitHistoryResponse.model_validate (.obj fields) = .error m)
    ∧ (∀ ifields it,
      SimplexPatientVisitHistoryItem.model_validate (.obj ifields) = .ok it →
      (∀ name, name ∈ item_required_fields →
        ∃ s, lookup_field ifields name = some (.str s))
      ∧ (lookup_field ifields "Patient_Visit_Registration_Note" = none →
        it.Patient_Visit_Registration_Note = none))
    ∧ (∀ s p m, 200 ≤ s → s < 300 →
      SimplexPatientVisitHistoryResponse.model_validate p = .error m →
      (get_patient_visit_history (fun _ => .response s (some p))).2
        = .error (.validation m)) := by
  refine ⟨?_, ?_, ?_, ?_, ?_, ?_, ?_, ?_⟩
  · intro h
    have hb := require_bool_error_of_none fields "status" h
    exact ⟨"status: Field required",
      by simp [SimplexPatientVisitHistoryResponse.model_validate, hb]⟩
  · intro h
    cases hb : require_bool fields "status" with
    | error m =>
      exact ⟨m, by simp [SimplexPatientVisitHistoryResponse.model_validate, hb]⟩
    | ok bv =>
      have hs := require_str_error_of_none fields "message" h
      exact ⟨"message: Field required",
        by simp [SimplexPatientVisitHistoryResponse.model_validate, hb, hs]⟩
  · intro j hj hc
    have hb := require_bool_error_of_wrong fields "status" j hj hc
    exact ⟨"status: Input should be a valid boolean",
      by simp [SimplexPatientVisitHistoryResponse.model_validate, hb]⟩
  · intro j hj hn
    cases hb : require_bool fields "status" with
    | error m =>
      exact ⟨m, by simp [SimplexPatientVisitHistoryResponse.model_validate, hb]⟩
    | ok bv =>
      have hs := require_str_error_of_wrong fields "message" j hj hn
      exact ⟨"message: Input should be a valid string",
        by simp [SimplexPatientVisitHistoryResponse.model_validate, hb, hs]⟩
  · intro r hr
    obtain ⟨hb, hs, hd⟩ := response_validate_ok_parts fields r hr
    refine ⟨require_bool_ok_coerce fields "status" r.status hb,
      require_str_ok_lookup fields "message" r.message hs, ?_⟩
    intro hnone
    have hempty := validate_data_of_none fields hnone
    rw [hd] at hempty
    simp only [Except.ok.injEq] at hempty
    exact hempty
  · intro xs ifields name hdata hx hname hbad
    cases hv : SimplexPatientVisitHistoryResponse.model_validate (.obj fields) with
    | error m => exact ⟨m, rfl⟩
    | ok r =>
      exfalso
      obtain ⟨hb, hs, hd⟩ := response_validate_ok_parts fields r hv
      rw [validate_data_of_arr fields xs hdata] at hd
      obtain ⟨it, hit⟩ := validate_items_ok_inv xs r.data hd (.obj ifields) hx
      obtain ⟨s0, hs0⟩ := (item_validate_ok_parts ifields it hit).1 name hname
      rcases hbad with hnone | ⟨j, hj, hne⟩
      · rw [hnone] at hs0
        exact Option.noConfusion hs0
      · rw [hj] at hs0
        injection hs0 with hj2
        exact hne s0 hj2
  · intro ifields it hit
    exact item_validate_ok_parts ifields it hit
  · intro s p m h200 h300 hv
    have hcl : classify_request (.response s (some p)) = .ok p := by
      simp only [classify_request]
      rw [if_pos (⟨h200, h300⟩ : 200 ≤ s ∧ s < 300)]
    have hrun : simplex_request (fun _ => .response s (some p)) = (1, .ok p) := by
      simp only [simplex_request, retry_call, SIMPLEX_RETRY_ATTEMPTS]
      unfold retry_run
      simp [hcl]
    simp [get_patient_visit_history, hrun, hv]

/-- Witness for claim C9: a payload whose message field is absent is
rejected by validation, and get_patient_visit_history surfaces the decode
failure to its caller. -/
theorem C9_validation_shape_witness :
    (get_patient_visit_history
        (fun _ => .response 200 (some (.obj [("status", .bool true)])))).2
      = .error (.validation ("message" ++ ": Field required")) :=
  (C9_validation_shape []).2.2.2.2.2.2.2 200 (.obj [("status", .bool true)])
    ("message" ++ ": Field required") (by decide) (by decide) rfl

/-- Claim C10: shape validation happens outside the retry wrapper. For a
2xx upstream response whose body is valid JSON but fails validation,
exactly one upstream request is made — the validation failure consumes no
retry budget — and the raised error is a validation error that is not one
of the six Simplex failure variants, hence rejected by the retryable
predicate. -/
theorem C10_validation_outside_retry (s : Nat) (p : JsonValue) (m : String)
    (h200 : 200 ≤ s) (h300 : s < 300)
    (hv : SimplexPatientVisitHistoryResponse.model_validate p = .error m) :
    get_patient_visit_history (fun _ => .response s (some p))
        = (1, .error (.validation m))
    ∧ service_retryable (.validation m) = false := by
  have hcl : classify_request (.response s (some p)) = .ok p := by
    simp only [classify_request]
    rw [if_pos (⟨h200, h300⟩ : 200 ≤ s ∧ s < 300)]
  have hrun : simplex_request (fun _ => .response s (some p)) = (1, .ok p) := by
    simp only [simplex_request, retry_call, SIMPLEX_RETRY_ATTEMPTS]
    unfold retry_run
    simp [hcl]
  exact ⟨by simp [get_patient_visit_history, hrun, hv], rfl⟩

/-- Witness for claim C10: a 200 response carrying the empty JSON object
fails validation on the required status field after a single request, and
the validation error is not retryable. -/
theorem C10_validation_outside_retry_witness :
    get_patient_visit_history (fun _ => .response 200 (some (.obj [])))
        = (1, .error (.validation ("status" ++ ": Field required")))
    ∧ service_retryable (.validation ("status" ++ ": Field required")) = false :=
  C10_validation_outside_retry 200 (.obj []) ("status" ++ ": Field required")
    (by decide) (by decide) rfl

/-- Failure raised out of LLMService.chat_completion: either an exception
from the upstream create call (llm.py lines 96-115, logged and re-raised
unchanged), or the IndexError raised at llm.py line 118 by
response.choices[0] when the choices list is empty. -/
inductive LLMFailure where
  | api (error : OpenAIError)
  | indexError
deriving DecidableEq, Repr

/-- Description str(e) of each modelled exception class, as interpolated
into the HTTP 500 detail by the /anonymize handler (main.py line 45):
each class carries its canonical message. -/
def llm_failure_str : LLMFailure → String
  | .api .rateLimitError => "Rate limit exceeded"
  | .api .apiError => "API error"
  | .api .apiConnectionError => "Connection error."
  | .api .apiTimeoutError => "Request timed out."
  | .api .timeoutError => "Timeout"
  | .api .otherError => "Unexpected error"
  | .indexError => "list index out of range"

/-- Return path of LLMService.chat_completion (llm.py lines 96-118): an
exception raised by the create call propagates; otherwise the function
returns response.choices[0].message.content — a subscript that sits
outside the try block and raises IndexError when choices is empty — and
that content may itself be absent. The upstream response is modelled by
the list of the message contents of its choices. -/
def chat_completion_return (outcome : Except OpenAIError (List (Option String))) :
    Except LLMFailure (Option String) :=
  match outcome with
  | .error e => .error (.api e)
  | .ok [] => .error .indexError
  | .ok (c :: _) => .ok c

/-- LLMService.anonymize (llm.py lines 120-121) delegates to
chat_completion with the fixed system prompt, and chat_completion performs
a single create call: the openai_retry decorator defined at llm.py lines
53-67 is not applied to either method, so the upstream call is attempted
exactly once. The pair returned counts the create invocations; the create
argument gives the outcome each invocation would observe. -/
def llm_anonymize (create : Nat → Except OpenAIError (List (Option String))) :
    Nat × Except LLMFailure (Option String) :=
  (1, chat_completion_return (create 1))

/-- AnonymizationMeta, models.py lines 4-6. -/
structure AnonymizationMeta where
  correlation_id : String
  elapsed_s : ℚ
deriving DecidableEq, Repr

/-- AnonymizationResponse, models.py lines 13-15. -/
structure AnonymizationResponse where
  anonymized : String
  meta : AnonymizationMeta
deriving DecidableEq, Repr

/-- Result of one request handler: a 200 response carrying the declared
response model, or a raised HTTPException with status code and detail. -/
inductive HandlerOutcome (α : Type) where
  | ok (value : α)
  | httpError (statusCode : Nat) (detail : String)
deriving DecidableEq, Repr

/-- Rounding round(x, 2) as used for elapsed_s (main.py line 53). Python
rounds ties to even while Mathlib round rounds them up; the two agree
everywhere else and no claim settled here sits on a tie. -/
def round2 (q : ℚ) : ℚ := ((round (q * 100) : ℤ) : ℚ) / 100

theorem round2_nonneg (q : ℚ) (h : 0 ≤ q) : 0 ≤ round2 q := by
  unfold round2
  have hf : (0 : ℤ) ≤ round (q * 100) := by
    rw [round_eq]
    refine Int.le_floor.mpr ?_
    push_cast
    nlinarith
  have hc : (0 : ℚ) ≤ ((round (q * 100) : ℤ) : ℚ) := by exact_mod_cast hf
  exact div_nonneg hc (by norm_num)

/-- POST /anonymize handler (main.py lines 31-61): a correlation id is
generated for the request, llm.anonymize is called, any exception maps to
HTTP 500 with str(e) as detail, a None result maps to HTTP 500 with its
distinct detail, and success returns the anonymized text with the
correlation id and the rounded elapsed monotonic-clock seconds. The
generated id and the two clock readings are the effectful inputs. -/
def anonymize_endpoint (corrId : String) (startTime endTime : ℚ)
    (anonResult : Except LLMFailure (Option String)) :
    HandlerOutcome AnonymizationResponse :=
  match anonResult with
  | .error e => .httpError 500 (llm_failure_str e)
  | .ok none => .httpError 500 "No anonymized data returned"
  | .ok (some t) =>
    .ok { anonymized := t,
          meta := { correlation_id := corrId,
                    elapsed_s := round2 (endTime - startTime) } }

/-- GET /ehr/patient-visit-histories handler (main.py lines 64-93): a
failing fetch maps to HTTP 502 with a fixed detail; on a successful fetch
the message is anonymized, any exception there is swallowed into None, a
None falls back to the original message, and the response is returned with
only the message field updated. -/
def patient_visit_histories
    (fetchResult : Except ServiceError SimplexPatientVisitHistoryResponse)
    (anonymizeMessage : String → Except LLMFailure (Option String)) :
    HandlerOutcome SimplexPatientVisitHistoryResponse :=
  match fetchResult with
  | .error _ => .httpError 502 "Failed to fetch patient visit history"
  | .ok resp =>
    let anonymized_message : Option String :=
      match anonymizeMessage resp.message with
      | .error _ => none
      | .ok m => m
    .ok { resp with message := anonymized_message.getD resp.message }

/-- Claim C1, evaluated at the failing input: a single upstream timeout
already propagates out of llm.anonymize after exactly one create
invocation, because openai_retry is defined but never applied, and the
/anonymize handler then answers HTTP 500 carrying the timeout description;
the third conjunct shows that the configured openai_retry, had it wrapped
the call, would have attempted the same persistent timeout 3 times. -/
theorem C1_no_retry_applied :
    llm_anonymize (fun _ => .error .apiTimeoutError)
        = (1, .error (.api .apiTimeoutError))
    ∧ anonymize_endpoint "cid" 0 0 (.error (.api .apiTimeoutError))
        = .httpError 500 (llm_failure_str (.api .apiTimeoutError))
    ∧ retry_call openai_retryable RETRY_ATTEMPTS_COUNT
        (fun _ => (.error .apiTimeoutError : Except OpenAIError (List (Option String))))
        = (3, .error .apiTimeoutError) :=
  ⟨rfl, rfl, rfl⟩

/-- Claim C5: the two failure paths of GET /ehr/patient-visit-histories
are asymmetric — any unrecovered failure of the primary fetch maps to an
HTTP 502 bad-gateway response, while a failure or a none result of the
secondary anonymization leaves the fetched payload returned as HTTP 200
with the original, unanonymized message, never a 502. -/
theorem C5_handler_asymmetry
    (fetchResult : Except ServiceError SimplexPatientVisitHistoryResponse)
    (anonymizeMessage : String → Except LLMFailure (Option String)) :
    (∀ e, fetchResult = .error e →
      patient_visit_histories fetchResult anonymizeMessage
        = .httpError 502 "Failed to fetch patient visit history")
    ∧ (∀ resp, fetchResult = .ok resp →
      ((∃ e, anonymizeMessage resp.message = .error e)
        ∨ anonymizeMessage resp.message = .ok none) →
      patient_visit_histories fetchResult anonymizeMessage = .ok resp) := by
  constructor
  · intro e he
    subst he
    rfl
  · intro resp hr hfail
    subst hr
    have hmsg : (match anonymizeMessage resp.message with
        | .error _ => (none : Option String)
        | .ok m => m) = none := by
      rcases hfail with ⟨e, he⟩ | he <;> rw [he]
    simp [patient_visit_histories, hmsg]

/-- Witness for claim C5: with anonymization failing, a fetched payload is
still returned with its original message; a failed fetch maps to 502. -/
theorem C5_handler_asymmetry_witness :
    patient_visit_histories (.ok ⟨true, "Patient reports headache", []⟩)
        (fun _ => .error (.api .apiError))
      = .ok ⟨true, "Patient reports headache", []⟩
    ∧ patient_visit_histories (.error (.simplex .notFound))
        (fun _ => .error (.api .apiError))
      = .httpError 502 "Failed to fetch patient visit history" := by
  constructor
  · exact (C5_handler_asymmetry _ _).2 ⟨true, "Patient reports headache", []⟩ rfl
      (Or.inl ⟨.api .apiError, rfl⟩)
  · exact (C5_handler_asymmetry _ _).1 (.simplex .notFound) rfl

/-- Claim C6: for every POST /anonymize request, a raised failure maps to
HTTP 500 with the error description as detail; a none result maps to HTTP
500 with its distinct detail and the same status; and a successful result
returns the anonymized text together with the per-request generated
correlation id and an elapsed-seconds value that is non-negative whenever
the monotonic clock reads no earlier at the end than at the start. -/
theorem C6_anonymize_endpoint (corrId : String) (startTime endTime : ℚ)
    (anonResult : Except LLMFailure (Option String)) :
    (∀ e, anonResult = .error e →
      anonymize_endpoint corrId startTime endTime anonResult
        = .httpError 500 (llm_failure_str e))
    ∧ (anonResult = .ok none →
      anonymize_endpoint corrId startTime endTime anonResult
        = .httpError 500 "No anonymized data returned")
    ∧ (∀ t, anonResult = .ok (some t) →
      anonymize_endpoint corrId startTime endTime anonResult
        = .ok { anonymized := t,
                meta := { correlation_id := corrId,
                          elapsed_s := round2 (endTime - startTime) } }
      ∧ (startTime ≤ endTime → 0 ≤ round2 (endTime - startTime))) := by
  refine ⟨?_, ?_, ?_⟩
  · intro e he
    subst he
    rfl
  · intro he
    subst he
    rfl
  · intro t ht
    subst ht
    exact ⟨rfl, fun hle => round2_nonneg _ (by linarith)⟩

/-- Witness for claim C6: a successful anonymization with the clock moving
forward by one second returns the text, the generated id, and a
non-negative elapsed value. -/
theorem C6_anonymize_endpoint_witness :
    anonymize_endpoint "c" 0 1 (.ok (some "x"))
        = .ok { anonymized := "x",
                meta := { correlation_id := "c", elapsed_s := round2 (1 - 0) } }
    ∧ 0 ≤ round2 (1 - 0) := by
  have h := (C6_anonymize_endpoint "c" 0 1 (.ok (some "x"))).2.2 "x" rfl
  exact ⟨h.1, h.2 (by norm_num)⟩

/-- Claim C7: on a successful fetch the handler may change only the
message field of the returned response — the status flag and the ordered
data sequence come back unchanged whatever the secondary anonymization
returns or raises. -/
theorem C7_message_only_frame (resp : SimplexPatientVisitHistoryResponse)
    (anonymizeMessage : String → Except LLMFailure (Option String)) :
    ∃ r, patient_visit_histories (.ok resp) anonymizeMessage = .ok r
      ∧ r.status = resp.status ∧ r.data = resp.data := by
  exact ⟨_, rfl, rfl, rfl⟩

/-- Claim C8 counterexample: an upstream success whose choices list is
empty does not make anonymize return none — the subscript
response.choices[0] raises IndexError, which propagates as a failure. -/
theorem C8_empty_choices_raises :
    (llm_anonymize (fun _ => .ok [])).2 = .error .indexError
    ∧ ¬ (llm_anonymize (fun _ => .ok [])).2 = .ok none :=
  ⟨rfl, by simp [llm_anonymize, chat_completion_return]⟩

/-- Claim C8 (amended): for every successful upstream chat-completion
response, anonymize returns the text content of the first choice, which is
none exactly when that content is absent; when the choices list is empty
an index error is raised and propagates as a failure instead of a none
return; an exception from the create call propagates unchanged. -/
theorem C8_first_choice_content
    (create : Nat → Except OpenAIError (List (Option String))) :
    (∀ c rest, create 1 = .ok (c :: rest) → (llm_anonymize create).2 = .ok c)
    ∧ (create 1 = .ok [] → (llm_anonymize create).2 = .error .indexError)
    ∧ (∀ e, create 1 = .error e → (llm_anonymize create).2 = .error (.api e)) := by
  refine ⟨?_, ?_, ?_⟩
  · intro c rest h
    simp [llm_anonymize, chat_completion_return, h]
  · intro h
    simp [llm_anonymize, chat_completion_return, h]
  · intro e h
    simp [llm_anonymize, chat_completion_return, h]

/-- Witness for claim C8: a single choice carrying text yields exactly
that text. -/
theorem C8_first_choice_content_witness :
    (llm_anonymize (fun _ => .ok [some "Patient_001 reports headache"])).2
      = .ok (some "Patient_001 reports headache") :=
  (C8_first_choice_content (fun _ => .ok [some "Patient_001 reports headache"])).1
    (some "Patient_001 reports headache") [] rfl

end Yma
